import Mathlib

/-!
Verification of the lgtm CLI's authentication-and-resilient-request subsystem.

Shallow embedding of:
  - `src/utils/errors.ts` (error taxonomy and `wrapError`),
  - `src/github/services/repository-service.ts` (`GitHubApiClient.request`,
    `_updateRateLimitInfo`, `getRateLimitInfo`),
  - `src/auth/services/auth-service.ts` (`pollForToken`, `loginWithToken`,
    `validateAndSaveToken`).

JavaScript numbers that can be NaN are modelled as `Option Int` (`none` = NaN);
header values travel as strings (octokit delivers response headers as strings),
and JS string truthiness (empty string falsy, absent falsy) is modelled
explicitly.
-/

namespace Lgtm

/-- A JavaScript number that may be NaN (`none` models NaN). -/
abbrev JSNum := Option Int

/-- JS string truthiness of a possibly-absent string: present and nonempty. -/
def truthyStr (m : Option String) : Bool :=
  match m with
  | some s => s != ""
  | none => false

/-- `m || dflt` on a possibly-absent JS string: falls back when absent or empty. -/
def jsOrStr (m : Option String) (dflt : String) : String :=
  match m with
  | some s => if s = "" then dflt else s
  | none => dflt

/-- Whether the first char list begins the second (helper for substring search). -/
def strStarts : List Char → List Char → Bool
  | [], _ => true
  | _ :: _, [] => false
  | a :: as, b :: bs => a == b && strStarts as bs

/-- Whether `needle` occurs as a contiguous substring of the char list. -/
def listHasSub (needle : List Char) : List Char → Bool
  | [] => needle.isEmpty
  | c :: rest => strStarts needle (c :: rest) || listHasSub needle rest

/-- JS `hay.includes(needle)` (case-sensitive substring test). -/
def jsIncludes (hay needle : String) : Bool :=
  listHasSub needle.toList hay.toList

/-- ASCII lower-casing of one character (the pattern `rate limit` is ASCII, so
ASCII folding captures the `/i` flag on the messages involved). -/
def lowerChar (c : Char) : Char :=
  if 65 ≤ c.toNat ∧ c.toNat ≤ 90 then Char.ofNat (c.toNat + 32) else c

/-- The regex test `/rate limit/i.test(s)`: case-insensitive substring search. -/
def hasRateLimitText (s : String) : Bool :=
  listHasSub "rate limit".toList (s.toList.map lowerChar)

/-- Digit value of a decimal digit character, if it is one. -/
def digitVal (c : Char) : Option Nat :=
  if c.isDigit then some (c.toNat - 48) else none

/-- Longest leading run of decimal digits, as digit values. -/
def takeDigits : List Char → List Nat
  | [] => []
  | c :: rest =>
    match digitVal c with
    | some d => d :: takeDigits rest
    | none => []

/-- Decimal digits to a natural number. -/
def digitsToNat (ds : List Nat) : Nat :=
  ds.foldl (fun a d => a * 10 + d) 0

/-- JS `parseInt(s, 10)`: skip leading whitespace, optional sign, read decimal
digits; NaN (`none`) when no digit follows. -/
def parseIntJS (s : String) : JSNum :=
  let cs := s.toList.dropWhile
    (fun c => c == ' ' || c == '\t' || c == '\n' || c == '\r')
  match cs with
  | '-' :: rest =>
    let ds := takeDigits rest
    if ds.isEmpty then none else some (-(digitsToNat ds : Int))
  | '+' :: rest =>
    let ds := takeDigits rest
    if ds.isEmpty then none else some (digitsToNat ds : Int)
  | _ =>
    let ds := takeDigits cs
    if ds.isEmpty then none else some (digitsToNat ds : Int)

/-- JS `<=` between possibly-NaN numbers: any comparison with NaN is false. -/
def jsNumLe (a b : JSNum) : Bool :=
  match a, b with
  | some x, some y => decide (x ≤ y)
  | _, _ => false

/-! ## Error taxonomy (`src/utils/errors.ts`) -/

/-- The `code` field of the CustomError hierarchy. -/
inductive ErrCode
  | apiError
  | authError
  | rateLimitError
  | configError
  | repositoryError
  | permissionError
  | validationError
  | notFoundError
  | unknownError
deriving DecidableEq, Repr

/-- A `CustomError` value: message, code, optional HTTP status, and (for
`RateLimitError` only) the reset time in epoch seconds (`some` on rate-limit
errors; the inner `JSNum` can be NaN). -/
structure CustomError where
  message : String
  code : ErrCode
  statusCode : Option Int
  resetTime : Option JSNum
deriving DecidableEq, Repr

/-- `new CustomError(message, code, statusCode)`. -/
def mkCustomError (message : String) (code : ErrCode) (statusCode : Option Int) :
    CustomError :=
  ⟨message, code, statusCode, none⟩

/-- `new AuthError(message)`: code AUTH_ERROR, statusCode 401. -/
def mkAuthError (message : String) : CustomError :=
  ⟨message, .authError, some 401, none⟩

/-- `new NotFoundError(message)`: code NOT_FOUND_ERROR, statusCode 404. -/
def mkNotFoundError (message : String) : CustomError :=
  ⟨message, .notFoundError, some 404, none⟩

/-- `new RateLimitError(message, resetTimestamp)`: ApiError with statusCode 429,
code overwritten to RATE_LIMIT_ERROR, carrying the reset timestamp. -/
def mkRateLimitError (message : String) (resetTimestamp : JSNum) : CustomError :=
  ⟨message, .rateLimitError, some 429, some resetTimestamp⟩

/-- A raw failure reaching `wrapError`: either already one of our typed errors,
a JS `Error` instance that is not a `CustomError` (octokit request errors are
`Error` instances and may carry a status), or a plain object with optional
status, message, and `x-ratelimit-reset` header. -/
inductive RawFailure
  | typed (e : CustomError)
  | jsError (message : String) (status : Option Int)
  | obj (status : Option Int) (message : Option String) (resetHeader : Option String)
deriving DecidableEq, Repr

/-- `wrapError(error, defaultMessage)` from `src/utils/errors.ts`, with the
current epoch time in seconds passed explicitly (used for the fallback reset
time `now + 3600`). The branch order mirrors the source: CustomError
passthrough, then `instanceof Error`, then status 401/403, then 404, then
429-or-rate-limit-message, then message-bearing fallback, then default. -/
def wrapError (nowSec : Int) (error : RawFailure) (defaultMessage : String) :
    CustomError :=
  match error with
  | .typed e => e
  | .jsError m _ => mkCustomError m .unknownError none
  | .obj status message resetHeader =>
    if status = some 401 ∨ status = some 403 then
      mkAuthError (jsOrStr message "Authentication failed")
    else if status = some 404 then
      mkNotFoundError (jsOrStr message "Resource not found")
    else if status = some 429 ∨
        (truthyStr message ∧ hasRateLimitText (jsOrStr message "") = true) then
      let resetTime : JSNum :=
        if truthyStr resetHeader then parseIntJS (jsOrStr resetHeader "")
        else some (nowSec + 3600)
      mkRateLimitError (jsOrStr message "API rate limit exceeded") resetTime
    else if truthyStr message then
      mkCustomError (jsOrStr message "") .unknownError status
    else
      mkCustomError defaultMessage .unknownError none

/-! ## Rate-limit tracking (`GitHubApiClient`, repository-service.ts) -/

/-- The client's `rateLimitInfo` field. Numeric fields are `JSNum` because
`_updateRateLimitInfo` stores `parseInt` results, which can be NaN. -/
structure RateLimitInfo where
  limit : JSNum
  remaining : JSNum
  resetTimestamp : JSNum
  isLimited : Bool
deriving DecidableEq, Repr

/-- The field initializer of `GitHubApiClient.rateLimitInfo`. -/
def initialRateLimitInfo : RateLimitInfo :=
  ⟨some 0, some 0, some 0, false⟩

/-- The three `x-ratelimit-*` response headers, each possibly absent; header
values are strings on the wire. -/
structure RateHeaders where
  limit : Option String
  remaining : Option String
  reset : Option String
deriving DecidableEq, Repr

/-- `_updateRateLimitInfo(headers)`: when all three header values are truthy,
overwrite the whole state with their `parseInt` results; otherwise leave the
state untouched. -/
def updateRateLimitInfo (rl : RateLimitInfo) (h : RateHeaders) : RateLimitInfo :=
  if truthyStr h.limit && truthyStr h.remaining && truthyStr h.reset then
    { limit := parseIntJS (jsOrStr h.limit "")
      remaining := parseIntJS (jsOrStr h.remaining "")
      resetTimestamp := parseIntJS (jsOrStr h.reset "")
      isLimited := jsNumLe (parseIntJS (jsOrStr h.remaining "")) (some 0) }
  else rl

/-- Folding a sequence of header sets through `_updateRateLimitInfo`. -/
def updateAll (rl : RateLimitInfo) (hs : List RateHeaders) : RateLimitInfo :=
  hs.foldl updateRateLimitInfo rl

/-- The state written by `_updateRateLimitInfo` from a truthy header set. -/
def parsedInfo (h : RateHeaders) : RateLimitInfo :=
  { limit := parseIntJS (jsOrStr h.limit "")
    remaining := parseIntJS (jsOrStr h.remaining "")
    resetTimestamp := parseIntJS (jsOrStr h.reset "")
    isLimited := jsNumLe (parseIntJS (jsOrStr h.remaining "")) (some 0) }

/-! ## The request loop (`GitHubApiClient.request`) -/

/-- A failed transport response: HTTP status, error message, and the optional
headers hung off the octokit request error. -/
structure ErrResp where
  status : Int
  message : String
  headers : Option RateHeaders
deriving DecidableEq, Repr

/-- One forced transport response for an attempt of the request loop. -/
inductive ApiResp
  | ok (headers : RateHeaders) (data : Nat)
  | err (e : ErrResp)
deriving DecidableEq, Repr

/-- What one `request()` call did: its outcome, how many transport attempts it
made, the backoff sleeps it performed (ms), and the final tracked rate-limit
state. -/
structure RequestResult where
  result : Except CustomError Nat
  attempts : Nat
  delays : List Nat
  rl : RateLimitInfo

/-- Header update applied to a request error (`if (requestError.headers)`). -/
def updErrHeaders (rl : RateLimitInfo) (h : Option RateHeaders) : RateLimitInfo :=
  match h with
  | some hd => updateRateLimitInfo rl hd
  | none => rl

/-- The `while (true)` retry loop of `GitHubApiClient.request`, lines 553-592:
one forced response is consumed per attempt. On success: update headers,
return data. On failure: update headers if present; a 403 whose message
matches `/rate limit/i` throws `RateLimitError` with the tracked reset
timestamp; a 5xx with `options.retry !== false` and `retries < maxRetries`
sleeps `1000 * 2^(retries)` ms and loops; anything else throws
`wrapError(requestError)` (request errors are `Error` instances). -/
def requestLoop (retryOpt : Bool) (maxRetries : Nat) (rl : RateLimitInfo)
    (retries : Nat) : List ApiResp → RequestResult
  | [] => ⟨.error (mkCustomError "no response" .unknownError none), 0, [], rl⟩
  | .ok h d :: _ => ⟨.ok d, 1, [], updateRateLimitInfo rl h⟩
  | .err e :: rest =>
    let rl1 := updErrHeaders rl e.headers
    if e.status == 403 && hasRateLimitText e.message then
      ⟨.error (mkRateLimitError "GitHub API rate limit exceeded" rl1.resetTimestamp),
        1, [], rl1⟩
    else if retryOpt && decide (500 ≤ e.status) && decide (e.status < 600)
        && decide (retries < maxRetries) then
      let r := requestLoop retryOpt maxRetries rl1 (retries + 1) rest
      ⟨r.result, r.attempts + 1, 1000 * 2 ^ retries :: r.delays, r.rl⟩
    else
      ⟨.error (wrapError 0 (.jsError e.message (some e.status))
          "An unexpected error occurred"), 1, [], rl1⟩

/-- The options record of `request()` (`retry?: boolean; maxRetries?: number`). -/
structure RequestOptions where
  retry : Option Bool
  maxRetries : Option Nat
deriving DecidableEq, Repr

/-- `options.maxRetries || config.get('github.maxRetryCount', 3)`: the JS `||`
treats both `undefined` and `0` as falsy, falling back to the configured
value. -/
def effectiveMaxRetries (opt : Option Nat) (cfgMaxRetry : Nat) : Nat :=
  match opt with
  | some m => if m = 0 then cfgMaxRetry else m
  | none => cfgMaxRetry

/-- The minutes figure of the rate-limit gate message:
`Math.ceil((reset * 1000 - now.getTime()) / 1000 / 60)` (NaN-propagating). -/
def gateMinutes (resetTimestamp : JSNum) (nowMs : Int) : JSNum :=
  match resetTimestamp with
  | some r => some (Int.ediv (r * 1000 - nowMs + 59999) 60000)
  | none => none

/-- Render a possibly-NaN number the way JS string interpolation does. -/
def jsNumToString (n : JSNum) : String :=
  match n with
  | some v => toString v
  | none => "NaN"

/-- The message of the gate's `RateLimitError`. -/
def gateMessage (resetTimestamp : JSNum) (nowMs : Int) : String :=
  "GitHub API rate limit exceeded. Resets in "
    ++ jsNumToString (gateMinutes resetTimestamp nowMs) ++ " minutes"

/-- `GitHubApiClient.request` after initialization, lines 538-592: the gate
throws `RateLimitError` when the tracked `remaining === 0` (no check of the
reset time); otherwise the retry loop runs with the effective retry limit.
The outer catch rewraps through `wrapError`, which passes every
already-typed error through unchanged. -/
def request (rl : RateLimitInfo) (opts : RequestOptions) (cfgMaxRetry : Nat)
    (nowMs : Int) (responses : List ApiResp) : RequestResult :=
  if rl.remaining == some 0 then
    ⟨.error (mkRateLimitError (gateMessage rl.resetTimestamp nowMs) rl.resetTimestamp),
      0, [], rl⟩
  else
    requestLoop (opts.retry != some false)
      (effectiveMaxRetries opts.maxRetries cfgMaxRetry) rl 0 responses

/-- `getRateLimitInfo` returns `{ ...this.rateLimitInfo }`: a field-wise copy
into a fresh object. -/
def copyInfo (r : RateLimitInfo) : RateLimitInfo :=
  ⟨r.limit, r.remaining, r.resetTimestamp, r.isLimited⟩

/-! ## Device-flow polling (`AuthService.pollForToken`, auth-service.ts) -/

/-- JSON body of one token-poll response. -/
structure PollBody where
  access_token : Option String
  error : Option String
  error_description : Option String
deriving DecidableEq, Repr

/-- One poll outcome: an HTTP-ok response with a body, an HTTP-level error
(`response.ok` false), or a thrown transport exception. -/
inductive PollResp
  | ok (body : PollBody)
  | httpErr
  | exn
deriving DecidableEq, Repr

/-- What one `pollForToken` run did: its outcome, number of poll attempts, and
the sleep performed before each attempt (ms, rational because the JS interval
math multiplies by 1.5). -/
structure PollResult where
  result : Except String String
  attempts : Nat
  sleeps : List ℚ

/-- `Math.min(interval * 1.5, 30000)`. -/
def bumpInterval (i : ℚ) : ℚ :=
  min (i * 3 / 2) 30000

/-- The polling loop of `pollForToken`, lines 328-384, with the poll responses
forced by attempt index and the remaining attempt budget as fuel. Each
iteration sleeps `interval` then polls: a truthy `access_token` breaks out
with the token; `authorization_pending` continues at the same interval;
`slow_down` or an error containing `too many requests`, an HTTP-level error,
or a thrown exception continues at `min(interval * 1.5, 30000)`; any other
body (including any other `error` value, which is only logged) continues at
the same interval. An exhausted budget without a token throws. -/
def pollLoop (resp : Nat → PollResp) : Nat → ℚ → Nat → PollResult
  | _, _, 0 => ⟨.error "Authentication timed out or was rejected", 0, []⟩
  | k, interval, fuel + 1 =>
    let cont : ℚ → PollResult := fun i =>
      let r := pollLoop resp (k + 1) i fuel
      ⟨r.result, r.attempts + 1, interval :: r.sleeps⟩
    match resp k with
    | .ok body =>
      if truthyStr body.access_token then
        ⟨.ok (jsOrStr body.access_token ""), 1, [interval]⟩
      else if truthyStr body.error then
        let e := jsOrStr body.error ""
        if e = "authorization_pending" then cont interval
        else if e = "slow_down" ∨ jsIncludes e "too many requests" = true then
          cont (bumpInterval interval)
        else cont interval
      else cont interval
    | .httpErr => cont (bumpInterval interval)
    | .exn => cont (bumpInterval interval)

/-- `pollForToken`: up to `maxRetries = 30` attempts, starting interval
5000 ms. -/
def pollForToken (resp : Nat → PollResp) : PollResult :=
  pollLoop resp 0 5000 30

/-- The `authorization_pending` poll body. -/
def pendingBody : PollBody :=
  ⟨none, some "authorization_pending", none⟩

/-! ## Token login (`AuthService.loginWithToken` / `validateAndSaveToken`) -/

/-- The `AuthMethod` enum of auth-service.ts. -/
inductive AuthMethod
  | browser
  | token
deriving DecidableEq, Repr

/-- The `AuthCredentials` record persisted by `saveCredentials`. -/
structure AuthCredentials where
  token : String
  username : Option String
  method : AuthMethod
deriving DecidableEq, Repr

/-- The `GitHubUser` record returned on successful validation. -/
structure GitHubUser where
  login : String
  name : Option String
  avatarUrl : String
deriving DecidableEq, Repr

/-- Outcome of the identity endpoint (`octokit.rest.users.getAuthenticated`). -/
inductive IdentityResp
  | ok (login : String) (name : Option String) (avatar_url : String)
  | err (status : Int)
deriving DecidableEq, Repr

/-- The service state the login path touches: the held Octokit token and the
record of every `saveCredentials` call performed. -/
structure AuthState where
  octokit : Option String
  saved : List AuthCredentials
deriving DecidableEq, Repr

/-- `validateAndSaveToken(token, method)`: initialize Octokit with the token;
on identity success save the credential and return the user; on identity
failure null out the Octokit instance and throw `Error('Invalid token')`
without saving. -/
def validateAndSaveToken (s : AuthState) (tok : String) (m : AuthMethod)
    (resp : IdentityResp) : AuthState × Except String GitHubUser :=
  let s1 : AuthState := { s with octokit := some tok }
  match resp with
  | .ok login name avatar =>
    ({ s1 with saved := s1.saved ++ [⟨tok, some login, m⟩] },
      .ok ⟨login, name, avatar⟩)
  | .err _ => ({ s1 with octokit := none }, .error "Invalid token")

/-- `loginWithToken(token)`: run `validateAndSaveToken` with method Token; a
failure is rethrown as `Error('Token authentication failed: ' + message)`. -/
def loginWithToken (s : AuthState) (tok : String) (resp : IdentityResp) :
    AuthState × Except String GitHubUser :=
  let sr := validateAndSaveToken s tok .token resp
  match sr.2 with
  | .ok u => (sr.1, .ok u)
  | .error msg => (sr.1, .error ("Token authentication failed: " ++ msg))

/-! ## Object identity for `getRateLimitInfo` -/

/-- A tiny heap of rate-limit records, to express that `{ ...rateLimitInfo }`
builds a fresh object: addresses are naturals. -/
def Heap : Type :=
  Nat → RateLimitInfo

/-- Read the record at an address. -/
def heapRead (h : Heap) (a : Nat) : RateLimitInfo :=
  h a

/-- Overwrite the record at an address (a mutation of that object). -/
def heapWrite (h : Heap) (a : Nat) (v : RateLimitInfo) : Heap :=
  fun x => if x = a then v else h x

/-- `getRateLimitInfo()` = `return { ...this.rateLimitInfo }`: allocate a fresh
object (at the given fresh address) holding a field-wise copy of the client's
internal record, and return its address. -/
def getRateLimitInfo (h : Heap) (selfAddr : Nat) (freshAddr : Nat) :
    Heap × Nat :=
  (heapWrite h freshAddr (copyInfo (heapRead h selfAddr)), freshAddr)

/-! ## Concrete inputs used by the theorems below -/

/-- An empty header set (all three rate-limit headers absent). -/
def hNone : RateHeaders := ⟨none, none, none⟩

/-- A transport failure with HTTP status 500. -/
def err500 : ApiResp := .err ⟨500, "Internal Server Error", none⟩

/-- A healthy tracked state: plenty of quota remaining. -/
def rlFresh : RateLimitInfo := ⟨some 5000, some 4999, some 1700000000, false⟩

/-- A tracked state with `remaining = 0` whose reset time lies in the past. -/
def rlStale : RateLimitInfo := ⟨some 5000, some 0, some 100, true⟩

/-- A header set whose three values are present but not numeric. -/
def malformedHeaders : RateHeaders := ⟨some "abc", some "xyz", some "pqr"⟩

/-- Well-formed headers reporting 5 remaining calls in window 1700000000. -/
def hdrRem5 : RateHeaders := ⟨some "60", some "5", some "1700000000"⟩

/-- Well-formed headers reporting 10 remaining calls in the same window. -/
def hdrRem10 : RateHeaders := ⟨some "60", some "10", some "1700000000"⟩

/-! ## C1: `wrapError` classification order -/

/-- C1 counterexample: a raw `{status: 403, message: "API rate limit
exceeded"}` failure is classified Auth by `wrapError`, not RateLimit — the
401/403 branch precedes the rate-limit branch, so a rate-limit-signaling 403
IS classified as Auth, contradicting the claim. -/
theorem c1_counterexample :
    (wrapError 0 (.obj (some 403) (some "API rate limit exceeded") none)
        "An unexpected error occurred").code = ErrCode.authError ∧
    (wrapError 0 (.obj (some 403) (some "API rate limit exceeded") none)
        "An unexpected error occurred").code ≠ ErrCode.rateLimitError := by
  refine ⟨rfl, by decide⟩

/-- C1 (amended): `wrapError` passes already-typed errors through unchanged
(idempotent); a failure that is a JS `Error` instance is classified generic
Unknown with its message, regardless of status; a non-`Error` 401 or 403
failure is always classified Auth, even when its message signals rate
limiting (the 401/403 branch precedes rate-limit detection); a non-`Error`
404 failure is always classified NotFound. -/
theorem c1_wrapError_order (now : Int) (d : String) (e : CustomError)
    (m : String) (st st4 : Option Int) (msg msg4 resetHdr : Option String)
    (hst : st = some 401 ∨ st = some 403) :
    wrapError now (.typed e) d = e ∧
    wrapError now (.jsError m st4) d = mkCustomError m .unknownError none ∧
    wrapError now (.obj st msg resetHdr) d
      = mkAuthError (jsOrStr msg "Authentication failed") ∧
    wrapError now (.obj (some 404) msg4 resetHdr) d
      = mkNotFoundError (jsOrStr msg4 "Resource not found") := by
  refine ⟨rfl, rfl, ?_, ?_⟩
  · rcases hst with h | h <;> subst h <;> simp [wrapError]
  · simp [wrapError]

/-- C1 witness: the amended theorem applied at a 403 failure carrying a
rate-limit message. -/
theorem c1_witness :
    wrapError 0 (.typed (mkAuthError "x")) "d" = mkAuthError "x" ∧
    wrapError 0 (.jsError "boom" (some 404)) "d"
      = mkCustomError "boom" .unknownError none ∧
    wrapError 0 (.obj (some 403) (some "API rate limit exceeded") none) "d"
      = mkAuthError "API rate limit exceeded" ∧
    wrapError 0 (.obj (some 404) (some "missing") none) "d"
      = mkNotFoundError "missing" := by
  simpa using c1_wrapError_order 0 "d" (mkAuthError "x") "boom" (some 403)
    (some 404) (some "API rate limit exceeded") (some "missing") none
    (Or.inr rfl)

/-! ## C6: `_updateRateLimitInfo` overwrite-or-no-op -/

/-- C6 counterexample: a header set whose three values are present but
malformed (non-numeric) DOES change the tracked state — it overwrites every
numeric field with NaN — contradicting "a malformed header set never changes
the tracked state". -/
theorem c6_counterexample :
    updateRateLimitInfo rlFresh malformedHeaders ≠ rlFresh ∧
    (updateRateLimitInfo rlFresh malformedHeaders).remaining = none ∧
    (updateRateLimitInfo rlFresh malformedHeaders).limit = none := by
  decide

/-- C6 (amended): `_updateRateLimitInfo` overwrites the tracked state exactly
when all three header values are present and nonempty — storing the raw
`parseInt` results, which are NaN when the values are malformed — and leaves
the state completely unchanged only when some header value is absent or
empty. -/
theorem c6_update_cases (rl rl2 : RateLimitInfo) (h h2 : RateHeaders)
    (hc : (truthyStr h.limit && truthyStr h.remaining && truthyStr h.reset)
      = true)
    (hc2 : (truthyStr h2.limit && truthyStr h2.remaining && truthyStr h2.reset)
      = false) :
    updateRateLimitInfo rl h = parsedInfo h ∧
    updateRateLimitInfo rl2 h2 = rl2 := by
  constructor
  · simp [updateRateLimitInfo, parsedInfo, hc]
  · simp [updateRateLimitInfo, hc2]

/-- C6 witness: the amended theorem applied to a well-formed set and to a set
with one header absent. -/
theorem c6_witness :
    updateRateLimitInfo rlFresh hdrRem5 = parsedInfo hdrRem5 ∧
    updateRateLimitInfo rlFresh ⟨some "60", none, some "99"⟩ = rlFresh :=
  c6_update_cases rlFresh rlFresh hdrRem5 ⟨some "60", none, some "99"⟩
    (by decide) (by decide)

/-! ## C7: monotonicity of the tracked `remaining` -/

/-- C7 counterexample: feeding two header sets from the same quota window
(identical reset timestamp) reporting 5 and then 10 remaining calls leaves
the tracked `remaining` at 10 — it increased within one window, with no
rollover observed — contradicting monotone non-increase. -/
theorem c7_counterexample :
    (updateAll initialRateLimitInfo [hdrRem5, hdrRem10]).remaining = some 10 ∧
    (updateAll initialRateLimitInfo [hdrRem5]).remaining = some 5 ∧
    (updateAll initialRateLimitInfo [hdrRem5, hdrRem10]).resetTimestamp
      = (updateAll initialRateLimitInfo [hdrRem5]).resetTimestamp := by
  decide

/-- C7 (amended): the tracker is last-writer-wins with no monotonicity
enforcement: after any update sequence ending in a well-formed header set,
the whole tracked state equals that last set's parsed values, regardless of
everything fed before — so `remaining` may increase within a window. -/
theorem c7_last_writer_wins (rl : RateLimitInfo) (hs : List RateHeaders)
    (h : RateHeaders)
    (hc : (truthyStr h.limit && truthyStr h.remaining && truthyStr h.reset)
      = true) :
    updateAll rl (hs ++ [h]) = parsedInfo h := by
  simp only [updateAll, List.foldl_append, List.foldl_cons, List.foldl_nil]
  simp [updateRateLimitInfo, parsedInfo, hc]

/-- C7 witness: the amended theorem applied after a higher-remaining set. -/
theorem c7_witness :
    updateAll initialRateLimitInfo ([hdrRem10] ++ [hdrRem5]) = parsedInfo hdrRem5 :=
  c7_last_writer_wins initialRateLimitInfo [hdrRem10] hdrRem5 (by decide)

/-! ## C8: `loginWithToken` on identity rejection -/

/-- C8 counterexample: when the identity endpoint rejects the token,
`loginWithToken` does fail without persisting, but the thrown error's message
is "Token authentication failed: Invalid token" (the inner "Invalid token"
rewrapped by `loginWithToken`'s catch), not "Invalid token" as claimed. -/
theorem c8_counterexample :
    (loginWithToken ⟨none, []⟩ "badtoken" (.err 401)).2
      = .error "Token authentication failed: Invalid token" ∧
    (loginWithToken ⟨none, []⟩ "badtoken" (.err 401)).1.saved = [] ∧
    ("Token authentication failed: Invalid token" : String) ≠ "Invalid token" := by
  refine ⟨rfl, rfl, by decide⟩

/-- C8 (amended): for every starting state and token, when the identity
endpoint rejects the token `loginWithToken` fails with message "Token
authentication failed: Invalid token" (wrapping the validation failure
"Invalid token"), the Octokit instance is cleared, and the credential store's
save is never called (the saved list is exactly what it was); only on
successful identity lookup is exactly one credential saved and the remote
user returned. -/
theorem c8_login_with_token (s : AuthState) (tok : String) (st : Int)
    (login avatar : String) (name : Option String) :
    loginWithToken s tok (.err st)
      = (⟨none, s.saved⟩, .error "Token authentication failed: Invalid token") ∧
    loginWithToken s tok (.ok login name avatar)
      = (⟨some tok, s.saved ++ [⟨tok, some login, .token⟩]⟩,
          .ok ⟨login, name, avatar⟩) := by
  exact ⟨rfl, rfl⟩

/-! ## Retry-loop bookkeeping lemmas -/

/-- The retry loop performs at most `maxRetries - retries + 1` attempts. -/
theorem requestLoop_attempts_le (retryOpt : Bool) (maxRetries : Nat)
    (rl : RateLimitInfo) (retries : Nat) (responses : List ApiResp) :
    (requestLoop retryOpt maxRetries rl retries responses).attempts
      ≤ maxRetries - retries + 1 := by
  induction responses generalizing rl retries with
  | nil => simp [requestLoop]
  | cons head rest ih =>
    cases head with
    | ok h d => simp [requestLoop]
    | err e =>
      simp only [requestLoop]
      split
      · simp
      · split
        · rename_i hcond
          simp only [Bool.and_eq_true, decide_eq_true_eq] at hcond
          have hlt : retries < maxRetries := hcond.2
          have hr := ih (updErrHeaders rl e.headers) (retries + 1)
          simp only
          omega
        · simp

/-- With retrying disabled the loop never recurses: at most one attempt. -/
theorem requestLoop_no_retry (maxRetries : Nat) (rl : RateLimitInfo)
    (retries : Nat) (responses : List ApiResp) :
    (requestLoop false maxRetries rl retries responses).attempts ≤ 1 := by
  cases responses with
  | nil => simp [requestLoop]
  | cons head rest =>
    cases head with
    | ok h d => simp [requestLoop]
    | err e =>
      simp only [requestLoop, Bool.false_and]
      split <;> simp

/-- A nonempty response list means the loop makes at least one attempt. -/
theorem requestLoop_attempts_pos (retryOpt : Bool) (maxRetries : Nat)
    (rl : RateLimitInfo) (retries : Nat) (head : ApiResp)
    (rest : List ApiResp) :
    1 ≤ (requestLoop retryOpt maxRetries rl retries (head :: rest)).attempts := by
  cases head with
  | ok h d => simp [requestLoop]
  | err e =>
    simp only [requestLoop]
    split
    · simp
    · split <;> simp

/-! ## C2: retry with exponential backoff -/

/-- C2: with retry enabled and `maxRetries = 3`, the forced sequence
{500, 500, 200} succeeds after exactly 2 retries (3 attempts) with backoff
sleeps of 1000 ms then 2000 ms (1000 · 2^attempt, attempt from 0); the forced
sequence {500, 500, 500, 500} fails after exactly 3 retries (4 attempts,
sleeps 1000/2000/4000 ms); and no forced sequence whatsoever yields more than
`maxRetries + 1 = 4` attempts. -/
theorem c2_retry_backoff (rl : RateLimitInfo) (nowMs : Int)
    (responses : List ApiResp) (hrl : rl.remaining ≠ some 0) :
    (request rl ⟨none, some 3⟩ 3 nowMs [err500, err500, .ok hNone 7]).result
      = .ok 7 ∧
    (request rl ⟨none, some 3⟩ 3 nowMs [err500, err500, .ok hNone 7]).attempts
      = 3 ∧
    (request rl ⟨none, some 3⟩ 3 nowMs [err500, err500, .ok hNone 7]).delays
      = [1000, 2000] ∧
    (request rl ⟨none, some 3⟩ 3 nowMs
        [err500, err500, err500, err500]).result
      = .error (mkCustomError "Internal Server Error" .unknownError none) ∧
    (request rl ⟨none, some 3⟩ 3 nowMs
        [err500, err500, err500, err500]).attempts = 4 ∧
    (request rl ⟨none, some 3⟩ 3 nowMs
        [err500, err500, err500, err500]).delays = [1000, 2000, 4000] ∧
    (request rl ⟨none, some 3⟩ 3 nowMs responses).attempts ≤ 4 := by
  have hb : (rl.remaining == some 0) = false := by
    simpa using hrl
  refine ⟨?_, ?_, ?_, ?_, ?_, ?_, ?_⟩
  all_goals simp only [request, hb, Bool.false_eq_true, if_false]
  · simp [requestLoop, err500, hNone, wrapError, hasRateLimitText, listHasSub,
      strStarts, effectiveMaxRetries]
  · simp [requestLoop, err500, hNone, wrapError, hasRateLimitText, listHasSub,
      strStarts, effectiveMaxRetries]
  · simp [requestLoop, err500, hNone, wrapError, hasRateLimitText, listHasSub,
      strStarts, effectiveMaxRetries]
  · simp [requestLoop, err500, hNone, wrapError, hasRateLimitText, listHasSub,
      strStarts, effectiveMaxRetries]
  · simp [requestLoop, err500, hNone, wrapError, hasRateLimitText, listHasSub,
      strStarts, effectiveMaxRetries]
  · simp [requestLoop, err500, hNone, wrapError, hasRateLimitText, listHasSub,
      strStarts, effectiveMaxRetries]
  · exact requestLoop_attempts_le true 3 rl 0 responses

/-- C2 witness: the theorem applied at a healthy tracked state. -/
theorem c2_witness :
    (request rlFresh ⟨none, some 3⟩ 3 0 [err500, err500, .ok hNone 7]).result
      = .ok 7 ∧
    (request rlFresh ⟨none, some 3⟩ 3 0 [err500, err500, .ok hNone 7]).attempts
      = 3 ∧
    (request rlFresh ⟨none, some 3⟩ 3 0 [err500, err500, .ok hNone 7]).delays
      = [1000, 2000] ∧
    (request rlFresh ⟨none, some 3⟩ 3 0
        [err500, err500, err500, err500]).result
      = .error (mkCustomError "Internal Server Error" .unknownError none) ∧
    (request rlFresh ⟨none, some 3⟩ 3 0
        [err500, err500, err500, err500]).attempts = 4 ∧
    (request rlFresh ⟨none, some 3⟩ 3 0
        [err500, err500, err500, err500]).delays = [1000, 2000, 4000] ∧
    (request rlFresh ⟨none, some 3⟩ 3 0 [err500]).attempts ≤ 4 :=
  c2_retry_backoff rlFresh 0 [err500] (by decide)

/-! ## C3: the pre-request rate-limit gate -/

/-- C3 counterexample: with tracked `remaining = 0` and a reset time far in
the past (reset 100 s, now 1000 s), the claim says the tracker is not
exhausted and the request is attempted; the code's gate checks only
`remaining === 0`, so the call fails immediately with a RateLimit error and
performs zero attempts. -/
theorem c3_counterexample :
    (request rlStale ⟨none, none⟩ 3 1000000 [.ok hNone 7]).attempts = 0 ∧
    (request rlStale ⟨none, none⟩ 3 1000000 [.ok hNone 7]).result
      = .error (mkRateLimitError
          "GitHub API rate limit exceeded. Resets in -15 minutes" (some 100)) := by
  exact ⟨rfl, rfl⟩

/-- C3 (amended): the gate ignores the reset time entirely: whenever the
tracked `remaining` equals 0 — past or future reset — `request` fails
immediately with a RateLimit error carrying the tracked reset timestamp and
performs zero attempts; whenever the tracked `remaining` differs from 0
(including NaN or negative values), the gate does not trip and the call
proceeds to at least one transport attempt. -/
theorem c3_gate_remaining_only (rl rl2 : RateLimitInfo) (opts opts2 : RequestOptions)
    (cfg cfg2 : Nat) (nowMs nowMs2 : Int) (responses : List ApiResp)
    (head : ApiResp) (rest : List ApiResp)
    (hz : rl.remaining = some 0) (hnz : rl2.remaining ≠ some 0) :
    request rl opts cfg nowMs responses
      = ⟨.error (mkRateLimitError (gateMessage rl.resetTimestamp nowMs)
          rl.resetTimestamp), 0, [], rl⟩ ∧
    1 ≤ (request rl2 opts2 cfg2 nowMs2 (head :: rest)).attempts := by
  constructor
  · simp [request, hz]
  · have hb : (rl2.remaining == some 0) = false := by simpa using hnz
    simp only [request, hb, Bool.false_eq_true, if_false]
    exact requestLoop_attempts_pos _ _ _ _ head rest

/-- C3 witness: the amended theorem applied at a stale-reset exhausted state
and a healthy state. -/
theorem c3_witness :
    request rlStale ⟨none, none⟩ 3 1000000 [.ok hNone 7]
      = ⟨.error (mkRateLimitError (gateMessage rlStale.resetTimestamp 1000000)
          rlStale.resetTimestamp), 0, [], rlStale⟩ ∧
    1 ≤ (request rlFresh ⟨none, none⟩ 3 0 [.ok hNone 7]).attempts := by
  simpa using c3_gate_remaining_only rlStale rlFresh ⟨none, none⟩ ⟨none, none⟩
    3 3 1000000 0 [.ok hNone 7] (.ok hNone 7) [] rfl (by decide)

/-! ## C4: RateLimit-classified failures are never retried -/

/-- C4: a transport failure with status 403 whose message matches
`/rate limit/i` makes the attempt loop fail immediately — one attempt, no
backoff sleep, no retry even with retrying enabled and retry budget left —
with a RateLimit error carrying the tracked reset timestamp (as updated from
the failure's own headers); the same holds for a whole `request` call
whatever its options. -/
theorem c4_rate_limit_never_retried (rl : RateLimitInfo) (maxRetries retries : Nat)
    (rest : List ApiResp) (e : ErrResp) (nowMs : Int) (opts : RequestOptions)
    (cfg : Nat) (h403 : e.status = 403)
    (hmsg : hasRateLimitText e.message = true)
    (hgate : rl.remaining ≠ some 0) :
    requestLoop true maxRetries rl retries (.err e :: rest)
      = ⟨.error (mkRateLimitError "GitHub API rate limit exceeded"
          (updErrHeaders rl e.headers).resetTimestamp), 1, [],
          updErrHeaders rl e.headers⟩ ∧
    request rl opts cfg nowMs (.err e :: rest)
      = ⟨.error (mkRateLimitError "GitHub API rate limit exceeded"
          (updErrHeaders rl e.headers).resetTimestamp), 1, [],
          updErrHeaders rl e.headers⟩ := by
  have hb : (rl.remaining == some 0) = false := by simpa using hgate
  constructor
  · simp [requestLoop, h403, hmsg]
  · simp [request, hb, requestLoop, h403, hmsg]

/-- C4 witness: the theorem applied to a 403 failure carrying a rate-limit
message and fresh headers, with retry budget remaining. -/
theorem c4_witness :
    requestLoop true 3 rlFresh 0
        [.err ⟨403, "API rate limit exceeded for user", some hdrRem5⟩]
      = ⟨.error (mkRateLimitError "GitHub API rate limit exceeded"
          (updErrHeaders rlFresh
            (some hdrRem5)).resetTimestamp), 1, [],
          updErrHeaders rlFresh (some hdrRem5)⟩ ∧
    request rlFresh ⟨none, some 3⟩ 3 0
        [.err ⟨403, "API rate limit exceeded for user", some hdrRem5⟩]
      = ⟨.error (mkRateLimitError "GitHub API rate limit exceeded"
          (updErrHeaders rlFresh (some hdrRem5)).resetTimestamp), 1, [],
          updErrHeaders rlFresh (some hdrRem5)⟩ :=
  c4_rate_limit_never_retried rlFresh 3 0 []
    ⟨403, "API rate limit exceeded for user", some hdrRem5⟩ 0 ⟨none, some 3⟩ 3
    rfl (by decide) (by decide)

/-! ## C9: `maxRetries = 0` falls back to the configured default -/

/-- C9: `options.maxRetries || config.get('github.maxRetryCount', 3)` treats
an explicit 0 as falsy, so passing `maxRetries = 0` leaves the effective
limit at the configured value: the call behaves identically to passing no
`maxRetries` at all, and with the default configuration 3 it still retries a
500 (two attempts on {500, 200}); the only way to disable retrying of 5xx
failures is `retry = false`, under which every call makes at most one
attempt. -/
theorem c9_max_retries_zero_fallback (rl : RateLimitInfo) (nowMs nowMs2 : Int)
    (cfg : Nat) (responses responses2 : List ApiResp) (r : Option Bool) :
    effectiveMaxRetries (some 0) cfg = cfg ∧
    request rl ⟨r, some 0⟩ cfg nowMs responses
      = request rl ⟨r, none⟩ cfg nowMs responses ∧
    (request rlFresh ⟨none, some 0⟩ 3 nowMs2 [err500, .ok hNone 7]).attempts
      = 2 ∧
    (request rlFresh ⟨none, some 0⟩ 3 nowMs2 [err500, .ok hNone 7]).result
      = .ok 7 ∧
    (request rl ⟨some false, some 0⟩ cfg nowMs responses2).attempts ≤ 1 := by
  refine ⟨rfl, rfl, rfl, rfl, ?_⟩
  by_cases hz : (rl.remaining == some 0) = true
  · simp [request, hz]
  · simp only [request, Bool.not_eq_true] at hz ⊢
    simp only [hz, Bool.false_eq_true, if_false]
    exact requestLoop_no_retry _ _ _ _

/-! ## C5: the device-flow polling loop -/

/-- A poll body denying the authorization (the device-flow `access_denied`). -/
def deniedBody : PollBody :=
  ⟨none, some "access_denied", some "The user denied the request"⟩

/-- A poll body carrying the access token. -/
def tokenBody : PollBody :=
  ⟨some "gho_tok123", none, none⟩

/-- Responder that denies on the first poll and hands out a token on the
second. -/
def deniedThenToken : Nat → PollResp :=
  fun n => if n = 0 then .ok deniedBody else .ok tokenBody

/-- When every poll answers `authorization_pending`, the loop burns its whole
budget at an unchanged interval and times out. -/
theorem pollLoop_all_pending (resp : Nat → PollResp)
    (h : ∀ n, resp n = .ok pendingBody) (fuel : Nat) :
    ∀ (k : Nat) (i : ℚ), pollLoop resp k i fuel
      = ⟨.error "Authentication timed out or was rejected", fuel,
          List.replicate fuel i⟩ := by
  induction fuel with
  | zero => intro k i; rfl
  | succ f ih =>
    intro k i
    simp only [pollLoop, h k]
    simp [pendingBody, truthyStr, jsOrStr, ih (k + 1), List.replicate_succ]

/-- C5 counterexample: a poll response whose error explicitly indicates denial
(`access_denied`) does not terminate the flow — the code only logs it and
keeps polling, so with the sequence [access_denied, access_token] the flow
succeeds with the token on attempt 2, contradicting the claimed
Denied/Expired termination. -/
theorem c5_counterexample :
    (pollForToken deniedThenToken).result = .ok "gho_tok123" ∧
    (pollForToken deniedThenToken).attempts = 2 := by
  exact ⟨rfl, rfl⟩

/-- C5 (amended): the polling loop starts at a 5000 ms interval with a hard
budget of 30 attempts; a truthy `access_token` terminates successfully with
that token; `authorization_pending` continues at the current interval;
`slow_down`, HTTP-level throttling, or a transport exception continues at
`min(interval * 1.5, 30000)`; any other error — including one explicitly
indicating denial or expiry — is only surfaced informationally and polling
continues at the current interval (there is no Denied/Expired termination);
and 30 attempts without a token fail with the timeout error. -/
theorem c5_poll_state_machine (respTok respPend respSlow respHttp respExn
      respOther respAll : Nat → PollResp)
    (k fuel : Nat) (i : ℚ) (bTok bOther : PollBody) (eOther : String)
    (hTok : respTok k = .ok bTok)
    (hTokT : truthyStr bTok.access_token = true)
    (hPend : respPend k = .ok pendingBody)
    (hSlow : respSlow k = .ok ⟨none, some "slow_down", none⟩)
    (hHttp : respHttp k = .httpErr)
    (hExn : respExn k = .exn)
    (hOther : respOther k = .ok bOther)
    (hOA : bOther.access_token = none)
    (hOE : bOther.error = some eOther)
    (hO1 : eOther ≠ "authorization_pending")
    (hO2 : eOther ≠ "slow_down")
    (hO3 : jsIncludes eOther "too many requests" = false)
    (hAll : ∀ n, respAll n = .ok pendingBody) :
    pollForToken respTok = pollLoop respTok 0 5000 30 ∧
    bumpInterval i = min (i * 3 / 2) 30000 ∧
    bumpInterval 25000 = 30000 ∧
    pollLoop respTok k i (fuel + 1)
      = ⟨.ok (jsOrStr bTok.access_token ""), 1, [i]⟩ ∧
    pollLoop respPend k i (fuel + 1)
      = ⟨(pollLoop respPend (k + 1) i fuel).result,
          (pollLoop respPend (k + 1) i fuel).attempts + 1,
          i :: (pollLoop respPend (k + 1) i fuel).sleeps⟩ ∧
    pollLoop respSlow k i (fuel + 1)
      = ⟨(pollLoop respSlow (k + 1) (bumpInterval i) fuel).result,
          (pollLoop respSlow (k + 1) (bumpInterval i) fuel).attempts + 1,
          i :: (pollLoop respSlow (k + 1) (bumpInterval i) fuel).sleeps⟩ ∧
    pollLoop respHttp k i (fuel + 1)
      = ⟨(pollLoop respHttp (k + 1) (bumpInterval i) fuel).result,
          (pollLoop respHttp (k + 1) (bumpInterval i) fuel).attempts + 1,
          i :: (pollLoop respHttp (k + 1) (bumpInterval i) fuel).sleeps⟩ ∧
    pollLoop respExn k i (fuel + 1)
      = ⟨(pollLoop respExn (k + 1) (bumpInterval i) fuel).result,
          (pollLoop respExn (k + 1) (bumpInterval i) fuel).attempts + 1,
          i :: (pollLoop respExn (k + 1) (bumpInterval i) fuel).sleeps⟩ ∧
    pollLoop respOther k i (fuel + 1)
      = ⟨(pollLoop respOther (k + 1) i fuel).result,
          (pollLoop respOther (k + 1) i fuel).attempts + 1,
          i :: (pollLoop respOther (k + 1) i fuel).sleeps⟩ ∧
    pollForToken respAll
      = ⟨.error "Authentication timed out or was rejected", 30,
          List.replicate 30 5000⟩ := by
  refine ⟨rfl, rfl, by norm_num [bumpInterval], ?_, ?_, ?_, ?_, ?_, ?_, ?_⟩
  · simp [pollLoop, hTok, hTokT]
  · simp [pollLoop, hPend, pendingBody, truthyStr, jsOrStr]
  · simp [pollLoop, hSlow, truthyStr, jsOrStr]
  · simp [pollLoop, hHttp]
  · simp [pollLoop, hExn]
  · by_cases he : eOther = ""
    · subst he
      simp [pollLoop, hOther, hOA, hOE, truthyStr]
    · simp [pollLoop, hOther, hOA, hOE, truthyStr, jsOrStr, he, hO1, hO2, hO3]
  · exact pollLoop_all_pending respAll hAll 30 0 5000

/-- C5 witness: the amended theorem applied at the initial interval with
concrete responders, the denial error standing in for "any other error". -/
theorem c5_witness :
    pollForToken (fun _ => .ok tokenBody)
      = pollLoop (fun _ => .ok tokenBody) 0 5000 30 ∧
    bumpInterval 5000 = min (5000 * 3 / 2) 30000 ∧
    bumpInterval 25000 = 30000 ∧
    pollLoop (fun _ => .ok tokenBody) 0 5000 (29 + 1)
      = ⟨.ok (jsOrStr tokenBody.access_token ""), 1, [5000]⟩ ∧
    pollLoop (fun _ => .ok pendingBody) 0 5000 (29 + 1)
      = ⟨(pollLoop (fun _ => .ok pendingBody) (0 + 1) 5000 29).result,
          (pollLoop (fun _ => .ok pendingBody) (0 + 1) 5000 29).attempts + 1,
          5000 :: (pollLoop (fun _ => .ok pendingBody) (0 + 1) 5000 29).sleeps⟩ ∧
    pollLoop (fun _ => .ok ⟨none, some "slow_down", none⟩) 0 5000 (29 + 1)
      = ⟨(pollLoop (fun _ => .ok ⟨none, some "slow_down", none⟩) (0 + 1)
            (bumpInterval 5000) 29).result,
          (pollLoop (fun _ => .ok ⟨none, some "slow_down", none⟩) (0 + 1)
            (bumpInterval 5000) 29).attempts + 1,
          5000 :: (pollLoop (fun _ => .ok ⟨none, some "slow_down", none⟩) (0 + 1)
            (bumpInterval 5000) 29).sleeps⟩ ∧
    pollLoop (fun _ => .httpErr) 0 5000 (29 + 1)
      = ⟨(pollLoop (fun _ => .httpErr) (0 + 1) (bumpInterval 5000) 29).result,
          (pollLoop (fun _ => .httpErr) (0 + 1) (bumpInterval 5000) 29).attempts + 1,
          5000 :: (pollLoop (fun _ => .httpErr) (0 + 1) (bumpInterval 5000) 29).sleeps⟩ ∧
    pollLoop (fun _ => .exn) 0 5000 (29 + 1)
      = ⟨(pollLoop (fun _ => .exn) (0 + 1) (bumpInterval 5000) 29).result,
          (pollLoop (fun _ => .exn) (0 + 1) (bumpInterval 5000) 29).attempts + 1,
          5000 :: (pollLoop (fun _ => .exn) (0 + 1) (bumpInterval 5000) 29).sleeps⟩ ∧
    pollLoop (fun _ => .ok deniedBody) 0 5000 (29 + 1)
      = ⟨(pollLoop (fun _ => .ok deniedBody) (0 + 1) 5000 29).result,
          (pollLoop (fun _ => .ok deniedBody) (0 + 1) 5000 29).attempts + 1,
          5000 :: (pollLoop (fun _ => .ok deniedBody) (0 + 1) 5000 29).sleeps⟩ ∧
    pollForToken (fun _ => .ok pendingBody)
      = ⟨.error "Authentication timed out or was rejected", 30,
          List.replicate 30 5000⟩ :=
  c5_poll_state_machine (fun _ => .ok tokenBody) (fun _ => .ok pendingBody)
    (fun _ => .ok ⟨none, some "slow_down", none⟩) (fun _ => .httpErr)
    (fun _ => .exn) (fun _ => .ok deniedBody) (fun _ => .ok pendingBody)
    0 29 5000 tokenBody deniedBody "access_denied"
    rfl rfl rfl rfl rfl rfl rfl rfl rfl (by decide) (by decide) (by decide)
    (fun _ => rfl)

/-! ## C10: `getRateLimitInfo` returns a fresh copy -/

/-- C10: `getRateLimitInfo` allocates a fresh object (any address different
from the client's internal record) holding a field-wise copy of the internal
state: the returned record reads equal to the internal one, and overwriting
the returned object with any value whatsoever leaves the internal record
exactly as it was — mutating the returned copy can never change the tracked
state. -/
theorem c10_fresh_copy (h : Heap) (selfAddr freshAddr : Nat)
    (v : RateLimitInfo) (hne : freshAddr ≠ selfAddr) :
    heapRead (getRateLimitInfo h selfAddr freshAddr).1
        (getRateLimitInfo h selfAddr freshAddr).2 = heapRead h selfAddr ∧
    heapRead (heapWrite (getRateLimitInfo h selfAddr freshAddr).1
        (getRateLimitInfo h selfAddr freshAddr).2 v) selfAddr
      = heapRead h selfAddr ∧
    copyInfo (heapRead h selfAddr) = heapRead h selfAddr := by
  refine ⟨?_, ?_, rfl⟩
  · simp [getRateLimitInfo, heapRead, heapWrite, copyInfo]
  · simp [getRateLimitInfo, heapRead, heapWrite, Ne.symm hne]

/-- C10 witness: the theorem applied on a two-cell heap, overwriting the
returned copy with a different record. -/
theorem c10_witness :
    heapRead (getRateLimitInfo (fun _ => rlFresh) 0 1).1
        (getRateLimitInfo (fun _ => rlFresh) 0 1).2
      = heapRead (fun _ => rlFresh) 0 ∧
    heapRead (heapWrite (getRateLimitInfo (fun _ => rlFresh) 0 1).1
        (getRateLimitInfo (fun _ => rlFresh) 0 1).2 rlStale) 0
      = heapRead (fun _ => rlFresh) 0 ∧
    copyInfo (heapRead (fun _ => rlFresh) 0) = heapRead (fun _ => rlFresh) 0 :=
  c10_fresh_copy (fun _ => rlFresh) 0 1 rlStale (by decide)

end Lgtm
